import Mathlib

set_option maxRecDepth 100000

/-!
Verification of the brevify backend (`src/app.py`): a Flask service with a
pure prompt builder `construct_prompt(text, mode, length)` and a request
handler `summarize()` for `POST /summarize`.

Embedding conventions:
* Python strings are Lean `String`s; `str.strip()` is `pyStripStr`,
  `str.lower()` is `pyLowerStr`, `len` is `String.length` (both count
  Unicode code points, as Python does).  `pyStripStr` removes leading and
  trailing whitespace and `pyLowerStr` lower-cases letters; the claims only
  exercise ASCII content, where these agree with Python exactly.
* A parsed JSON body is modelled by `Option JObj`: `none` stands for an
  absent or unparseable body (the web framework hands the handler `None`
  in that case, per the spec's step 1); `some d` is a JSON object, whose
  `text` / `mode` / `length` keys are `Option JVal` (absent key = `none`,
  a present `null` value = `some .null`), plus a count `others` of any
  further keys, used only for Python's dict truthiness test `if not data`.
* The external Gemini call is an opaque parameter
  `gen : String → Except String String`: `.ok s` is a successful response
  whose `.text` is `s`, `.error e` is a raised exception whose `str(e)` is
  `e`.  Python exceptions inside the handler are modelled by the
  `Except String` monad; the `except Exception` block of `summarize`
  corresponds to the final `match` in `summarize` below.
-/

/-- A JSON value as far as the handler inspects one: a string, a number, or
`null`.  Numbers and `null` matter only because `.strip()` / `.lower()`
raise `AttributeError` on them. -/
inductive JVal where
  | str (s : String)
  | num (n : Int)
  | null
deriving DecidableEq, Repr

/-- The parsed JSON object received by `/summarize`: the three keys the
handler reads (absent = `none`), plus the number of other keys (only its
positivity matters, for dict truthiness). -/
structure JObj where
  text : Option JVal
  mode : Option JVal
  length : Option JVal
  others : Nat
deriving DecidableEq, Repr

/-- Python dict truthiness: `if not data` on an (already non-`None`) dict is
taken iff the dict is empty. -/
def JObj.isTruthy (d : JObj) : Bool :=
  d.text.isSome || d.mode.isSome || d.length.isSome || d.others != 0

/-- Python `str.strip()`: remove leading and trailing whitespace. -/
def pyStripStr (s : String) : String :=
  ⟨((s.data.dropWhile Char.isWhitespace).reverse.dropWhile Char.isWhitespace).reverse⟩

/-- Python `str.lower()` (ASCII range, which is all the handler compares). -/
def pyLowerStr (s : String) : String := ⟨s.data.map Char.toLower⟩

/-- Python `v.strip()` on a JSON value: trims a string, raises
`AttributeError` otherwise (message as `str(e)` would render it). -/
def pyStrip : JVal → Except String String
  | .str s => .ok (pyStripStr s)
  | .null => .error "\x27NoneType\x27 object has no attribute \x27strip\x27"
  | .num _ => .error "\x27int\x27 object has no attribute \x27strip\x27"

/-- Python `v.lower()` on a JSON value: lower-cases a string, raises
`AttributeError` otherwise. -/
def pyLower : JVal → Except String String
  | .str s => .ok (pyLowerStr s)
  | .null => .error "\x27NoneType\x27 object has no attribute \x27lower\x27"
  | .num _ => .error "\x27int\x27 object has no attribute \x27lower\x27"

/-- `construct_prompt(text, mode, length)` from `src/app.py` (lines 31-198):
the five PTCF templates, the `length_specs` table with its `medium` default,
and the recursive fallback to `paragraph` for an unrecognized mode.
Python's f-strings are rendered as explicit concatenations. -/
def construct_prompt (text mode length : String) : String :=
  let length_specs : List (String × String) :=
    [("short", "2-3 sentences (50-75 words)"),
     ("medium", "4-6 sentences (100-150 words)"),
     ("long", "7-10 sentences (200-250 words)")]
  let length_instruction := (length_specs.lookup length).getD "4-6 sentences (100-150 words)"
  if _h1 : mode = "paragraph" then
    "You are a professional text summarizer with expertise in condensing complex information.\n\nTask: Summarize the following text into a single, coherent paragraph.\n\nLength requirement: "
      ++ length_instruction
      ++ "\n\nGuidelines:\n- Maintain the core message and key points\n- Use clear, professional language\n- Ensure logical flow and coherence\n- Do NOT use bullet points or lists\n- Write in complete sentences with smooth transitions\n\nText to summarize:\n\"\"\"\n"
      ++ text
      ++ "\n\"\"\"\n\nProvide only the summary paragraph, nothing else."
  else if _h2 : mode = "bullets" then
    "You are an expert at extracting and organizing key information from text.\n\nTask: Extract the main points from the following text and present them as a clear bullet-point list.\n\nLength requirement: "
      ++ length_instruction
      ++ " (distributed across bullet points)\n\nGuidelines:\n- Start each bullet with a dash (-)\n- Each point should be concise and self-contained\n- Use parallel grammatical structure\n- Focus on actionable insights and key facts\n- Order points by importance (most important first)\n\nText to analyze:\n\"\"\"\n"
      ++ text
      ++ "\n\"\"\"\n\nProvide only the bullet-point list, nothing else."
  else if _h3 : mode = "eli5" then
    "You are a patient teacher who explains complex topics to 5-year-old children using simple language and relatable examples.\n\nTask: Explain the following text as if you\x27re talking to a 5-year-old child.\n\nLength requirement: "
      ++ length_instruction
      ++ "\n\nGuidelines:\n- Use VERY simple words (avoid jargon completely)\n- Use everyday analogies and examples\n- Break down complex ideas into small, digestible pieces\n- Be warm and encouraging in tone\n- Avoid technical terms unless absolutely necessary (and explain them simply)\n\nText to explain:\n\"\"\"\n"
      ++ text
      ++ "\n\"\"\"\n\nProvide only the ELI5 explanation, nothing else."
  else if _h4 : mode = "questions" then
    "You are a critical analyst who identifies the core questions that a piece of text addresses.\n\nTask: Analyze the following text and generate 3-5 key questions that this text answers or addresses.\n\nGuidelines:\n- Each question should be clear, specific, and insightful\n- Questions should capture the main themes and arguments\n- Use proper question format (Who/What/Where/When/Why/How)\n- Number each question (1., 2., 3., etc.)\n- Questions should be standalone (understandable without reading the text)\n- Prioritize questions by importance\n\nText to analyze:\n\"\"\"\n"
      ++ text
      ++ "\n\"\"\"\n\nProvide only the numbered list of questions, nothing else."
  else if _h5 : mode = "seo" then
    "You are an expert SEO copywriter specializing in meta descriptions for web content.\n\nTask: Create a compelling SEO meta description for the following text.\n\nCRITICAL Requirements:\n- Maximum length: 155 characters (STRICT LIMIT)\n- Include relevant keywords naturally\n- Make it engaging and click-worthy\n- Accurately represent the content\n- Use active voice\n- End with a call-to-action or value proposition when possible\n\nText to summarize:\n\"\"\"\n"
      ++ text
      ++ "\n\"\"\"\n\nProvide ONLY the meta description (150-155 characters max), nothing else. No explanations or additional text."
  else
    construct_prompt text "paragraph" length
termination_by ((if mode = "paragraph" then 0 else 1) : Nat)
decreasing_by simp [_h1]

/-- The five valid modes, in the order of `src/app.py` line 244. -/
def validModes : List String := ["paragraph", "bullets", "eli5", "questions", "seo"]

/-- The three valid lengths, `src/app.py` line 247. -/
def validLengths : List String := ["short", "medium", "long"]

/-- An HTTP response of `/summarize`: `200` with the summary/mode/length
payload, `400` with an error message, or `500` with an error message. -/
inductive HttpResult where
  | ok (summary mode length : String)
  | clientError (msg : String)
  | serverError (msg : String)
deriving DecidableEq, Repr

/-- The body of the `try:` block of `summarize()` (`src/app.py` lines
226-274), in the `Except String` monad: `.error e` is an exception escaping
to the `except` block with `str(e) = e`. -/
def summarizeCore (gen : String → Except String String) (data : Option JObj) :
    Except String HttpResult :=
  match data with
  | none => .ok (.clientError "No data provided")
  | some d =>
    if d.isTruthy = false then .ok (.clientError "No data provided")
    else
      match pyStrip (d.text.getD (.str "")) with
      | .error e => .error e
      | .ok text =>
        match pyLower (d.mode.getD (.str "paragraph")) with
        | .error e => .error e
        | .ok mode =>
          match pyLower (d.length.getD (.str "medium")) with
          | .error e => .error e
          | .ok length =>
            if text = "" then .ok (.clientError "Text field is required")
            else if text.length < 50 then
              .ok (.clientError "Text must be at least 50 characters long")
            else if mode ∉ validModes then
              .ok (.clientError "Invalid mode specified")
            else if length ∉ validLengths then
              .ok (.clientError "Invalid length specified")
            else
              match gen (construct_prompt text mode length) with
              | .error e => .error e
              | .ok s => .ok (.ok (pyStripStr s) mode length)

/-- The `/summarize` handler (`src/app.py` lines 201-283): the `try:` body
plus the catch-all `except Exception` that maps any exception to a `500`
response. -/
def summarize (gen : String → Except String String) (data : Option JObj) :
    HttpResult :=
  match summarizeCore gen data with
  | .ok r => r
  | .error e => .serverError ("An error occurred while generating the summary: " ++ e)

/-- `s` contains `sub` as a contiguous substring (on code points). -/
def strContains (s sub : String) : Prop := sub.data <:+: s.data

instance (s sub : String) : Decidable (strContains s sub) :=
  inferInstanceAs (Decidable (sub.data <:+: s.data))

/-- A stand-in successful generation service, used for concrete evaluations. -/
def genDemo : String → Except String String := fun _ => .ok "demo summary"

theorem strContains_appendl {a sub : String} (b : String) (h : strContains a sub) :
    strContains (a ++ b) sub := by
  obtain ⟨u, v, huv⟩ := h
  exact ⟨u, v ++ b.data, by simp [String.data_append, ← huv]⟩

theorem strContains_appendr {b sub : String} (a : String) (h : strContains b sub) :
    strContains (a ++ b) sub := by
  obtain ⟨u, v, huv⟩ := h
  exact ⟨a.data ++ u, v, by simp [String.data_append, ← huv]⟩

theorem strContains_self (s : String) : strContains s s := ⟨[], [], by simp⟩

theorem construct_prompt_paragraph_props (text length : String) :
    construct_prompt text "paragraph" length ≠ "" ∧
    strContains (construct_prompt text "paragraph" length) text := by
  rw [construct_prompt]
  simp only [reduceDIte]
  constructor
  · simp [String.ext_iff, String.data_append]
  · exact strContains_appendl _ (strContains_appendr _ (strContains_self _))

theorem construct_prompt_bullets_props (text length : String) :
    construct_prompt text "bullets" length ≠ "" ∧
    strContains (construct_prompt text "bullets" length) text ∧
    strContains (construct_prompt text "bullets" length) "bullet-point" := by
  rw [construct_prompt]
  simp only [reduceDIte]
  refine ⟨?_, ?_, ?_⟩
  · simp [String.ext_iff, String.data_append]
  · exact strContains_appendl _ (strContains_appendr _ (strContains_self _))
  · exact strContains_appendl _ (strContains_appendl _ (strContains_appendl _
      (strContains_appendl _ (by decide))))

theorem construct_prompt_eli5_props (text length : String) :
    construct_prompt text "eli5" length ≠ "" ∧
    strContains (construct_prompt text "eli5" length) text ∧
    strContains (construct_prompt text "eli5" length) "5-year-old" := by
  rw [construct_prompt]
  simp only [reduceDIte]
  refine ⟨?_, ?_, ?_⟩
  · simp [String.ext_iff, String.data_append]
  · exact strContains_appendl _ (strContains_appendr _ (strContains_self _))
  · exact strContains_appendl _ (strContains_appendl _ (strContains_appendl _
      (strContains_appendl _ (by decide))))

theorem construct_prompt_questions_props (text length : String) :
    construct_prompt text "questions" length ≠ "" ∧
    strContains (construct_prompt text "questions" length) text := by
  rw [construct_prompt]
  simp only [reduceDIte]
  constructor
  · simp [String.ext_iff, String.data_append]
  · exact strContains_appendl _ (strContains_appendr _ (strContains_self _))

theorem construct_prompt_seo_props (text length : String) :
    construct_prompt text "seo" length ≠ "" ∧
    strContains (construct_prompt text "seo" length) text ∧
    strContains (construct_prompt text "seo" length) "155 characters" := by
  rw [construct_prompt]
  simp only [reduceDIte]
  refine ⟨?_, ?_, ?_⟩
  · simp [String.ext_iff, String.data_append]
  · exact strContains_appendl _ (strContains_appendr _ (strContains_self _))
  · exact strContains_appendl _ (strContains_appendl _ (by decide))

/-- C2: for every text, every length, and every mode outside the five valid
ones, `construct_prompt` returns exactly the string it returns for mode
`"paragraph"` with the same text and length (the fallback re-derives the
length instruction from the same length and is not an error). -/
theorem construct_prompt_unknown_mode_fallback (text length mode : String)
    (hm : mode ∉ validModes) :
    construct_prompt text mode length = construct_prompt text "paragraph" length := by
  simp [validModes] at hm
  obtain ⟨h1, h2, h3, h4, h5⟩ := hm
  rw [construct_prompt]
  simp [h1, h2, h3, h4, h5]

/-- Witness for C2 at the spec's own example mode `"haiku"`. -/
theorem construct_prompt_unknown_mode_fallback_witness :
    "haiku" ∉ validModes ∧
    construct_prompt "Some text" "haiku" "short" =
      construct_prompt "Some text" "paragraph" "short" :=
  ⟨by decide, construct_prompt_unknown_mode_fallback "Some text" "short" "haiku" (by decide)⟩

/-- C4: for every valid mode and every valid length, the prompt is a
non-empty string containing the input text verbatim, and contains the
mode-appropriate keyword: "bullet-point" for bullets, "5-year-old" for
eli5, "155 characters" for seo. -/
theorem construct_prompt_valid_mode_props (text mode length : String)
    (hm : mode ∈ validModes) (hl : length ∈ validLengths) :
    construct_prompt text mode length ≠ "" ∧
    strContains (construct_prompt text mode length) text ∧
    (mode = "bullets" → strContains (construct_prompt text mode length) "bullet-point") ∧
    (mode = "eli5" → strContains (construct_prompt text mode length) "5-year-old") ∧
    (mode = "seo" → strContains (construct_prompt text mode length) "155 characters") := by
  clear hl
  simp [validModes] at hm
  rcases hm with h | h | h | h | h <;> subst h
  · obtain ⟨h1, h2⟩ := construct_prompt_paragraph_props text length
    exact ⟨h1, h2, by simp, by simp, by simp⟩
  · obtain ⟨h1, h2, h3⟩ := construct_prompt_bullets_props text length
    exact ⟨h1, h2, fun _ => h3, by simp, by simp⟩
  · obtain ⟨h1, h2, h3⟩ := construct_prompt_eli5_props text length
    exact ⟨h1, h2, by simp, fun _ => h3, by simp⟩
  · obtain ⟨h1, h2⟩ := construct_prompt_questions_props text length
    exact ⟨h1, h2, by simp, by simp, by simp⟩
  · obtain ⟨h1, h2, h3⟩ := construct_prompt_seo_props text length
    exact ⟨h1, h2, by simp, by simp, fun _ => h3⟩

/-- Witness for C4 at mode `"bullets"`, length `"short"`. -/
theorem construct_prompt_valid_mode_props_witness :
    ("bullets" ∈ validModes ∧ "short" ∈ validLengths) ∧
    (construct_prompt "An example input text" "bullets" "short" ≠ "" ∧
     strContains (construct_prompt "An example input text" "bullets" "short")
       "An example input text" ∧
     ("bullets" = "bullets" →
       strContains (construct_prompt "An example input text" "bullets" "short") "bullet-point") ∧
     ("bullets" = "eli5" →
       strContains (construct_prompt "An example input text" "bullets" "short") "5-year-old") ∧
     ("bullets" = "seo" →
       strContains (construct_prompt "An example input text" "bullets" "short") "155 characters")) :=
  ⟨⟨by decide, by decide⟩,
   construct_prompt_valid_mode_props "An example input text" "bullets" "short"
     (by decide) (by decide)⟩

/-- C5: the questions template never uses the length instruction: for every
text and every pair of lengths the prompt is identical. -/
theorem construct_prompt_questions_length_irrelevant (text l1 l2 : String) :
    construct_prompt text "questions" l1 = construct_prompt text "questions" l2 := by
  simp [construct_prompt]

/-- A stand-in failing generation service, used for concrete evaluations. -/
def genFail : String → Except String String := fun _ => .error "simulated upstream failure"

/-- If the `try:` body raises, the handler maps the exception to a `500`
with the fixed message prefix. -/
theorem summarize_of_core_error (gen : String → Except String String)
    (data : Option JObj) (msg : String) (h : summarizeCore gen data = .error msg) :
    summarize gen data = .serverError ("An error occurred while generating the summary: " ++ msg) := by
  simp [summarize, h]

/-- C7: a `POST /summarize` request whose body is absent or unparseable
(handed to the handler as `None`) gets `400` with error "No data provided",
for every behaviour of the external service. -/
theorem summarize_no_body_400 (gen : String → Except String String) :
    summarize gen none = .clientError "No data provided" := rfl

/-- C1 (amended): if the trimmed text is non-empty and shorter than 50
characters, and the mode and length fields are absent or strings, the
handler answers `400` "Text must be at least 50 characters long" whatever
the external service does (so the service is never invoked); and a trimmed
text of exactly 50 characters passes the length check and reaches the
external call, whose outcome alone decides the response. -/
theorem summarize_min_length_validation :
    (∀ (gen : String → Except String String) (t : String) (om ol : Option String) (k : Nat),
      pyStripStr t ≠ "" → (pyStripStr t).length < 50 →
      summarize gen (some ⟨some (.str t), om.map .str, ol.map .str, k⟩) =
        .clientError "Text must be at least 50 characters long") ∧
    (∀ (gen : String → Except String String) (t : String) (k : Nat),
      (pyStripStr t).length = 50 →
      summarize gen (some ⟨some (.str t), none, none, k⟩) =
        match gen (construct_prompt (pyStripStr t) "paragraph" "medium") with
        | .ok s => .ok (pyStripStr s) "paragraph" "medium"
        | .error e => .serverError ("An error occurred while generating the summary: " ++ e)) := by
  constructor
  · intro gen t om ol k h1 h2
    cases om <;> cases ol <;>
      simp [summarize, summarizeCore, pyStrip, pyLower, JObj.isTruthy, h1, h2]
  · intro gen t k h
    have h1 : ¬ pyStripStr t = "" := by
      intro he
      rw [he] at h
      simp at h
    have hp : pyLowerStr "paragraph" = "paragraph" := by decide
    have hmed : pyLowerStr "medium" = "medium" := by decide
    simp [summarize, summarizeCore, pyStrip, pyLower, JObj.isTruthy, h1, h, hp, hmed,
      validModes, validLengths]
    cases gen (construct_prompt (pyStripStr t) "paragraph" "medium") <;> simp

/-- Counterexample to C1 as frozen: a text trimming to the empty string has
fewer than 50 characters but yields "Text field is required", and a short
text accompanied by a numeric mode yields `500`, not the claimed `400`
message. -/
theorem summarize_min_length_counterexample :
    ((pyStripStr "   ").length < 50 ∧
      summarize genDemo (some ⟨some (.str "   "), none, none, 0⟩) =
        .clientError "Text field is required") ∧
    ((pyStripStr "short text").length < 50 ∧
      summarize genDemo (some ⟨some (.str "short text"), some (.num 5), none, 0⟩) =
        .serverError "An error occurred while generating the summary: \x27int\x27 object has no attribute \x27lower\x27") := by
  decide

/-- Witness for C1: a 12-character text is rejected with the length error;
a 50-character text passes validation and gets a `200`. -/
theorem summarize_min_length_validation_witness :
    (pyStripStr "A short text" ≠ "" ∧ (pyStripStr "A short text").length < 50 ∧
      summarize genDemo (some ⟨some (.str "A short text"), none, none, 0⟩) =
        .clientError "Text must be at least 50 characters long") ∧
    ((pyStripStr "This sample input text is exactly fifty chars long").length = 50 ∧
      summarize genDemo
          (some ⟨some (.str "This sample input text is exactly fifty chars long"), none, none, 0⟩) =
        .ok (pyStripStr "demo summary") "paragraph" "medium") :=
  ⟨⟨by decide, by decide,
    summarize_min_length_validation.1 genDemo "A short text" none none 0 (by decide) (by decide)⟩,
   ⟨by decide,
    (summarize_min_length_validation.2 genDemo
      "This sample input text is exactly fifty chars long" 0 (by decide)).trans (by rfl)⟩⟩

/-- C6: with valid text and no mode/length fields, the defaults
`"paragraph"`/`"medium"` are applied and echoed back in the `200` payload. -/
theorem summarize_defaults_echoed (gen : String → Except String String)
    (t s : String) (k : Nat)
    (hlen : 50 ≤ (pyStripStr t).length)
    (hg : gen (construct_prompt (pyStripStr t) "paragraph" "medium") = .ok s) :
    summarize gen (some ⟨some (.str t), none, none, k⟩) =
      .ok (pyStripStr s) "paragraph" "medium" := by
  have h1 : ¬ pyStripStr t = "" := by
    intro he
    rw [he] at hlen
    simp at hlen
  have h2 : ¬ (pyStripStr t).length < 50 := Nat.not_lt.mpr hlen
  have hp : pyLowerStr "paragraph" = "paragraph" := by decide
  have hmed : pyLowerStr "medium" = "medium" := by decide
  simp [summarize, summarizeCore, pyStrip, pyLower, JObj.isTruthy, h1, h2, hp, hmed,
    validModes, validLengths, hg]

/-- Witness for C6 on a 75-character text. -/
theorem summarize_defaults_echoed_witness :
    50 ≤ (pyStripStr "An input text that is comfortably longer than fifty characters for testing.").length ∧
    summarize genDemo
        (some ⟨some (.str "An input text that is comfortably longer than fifty characters for testing."), none, none, 0⟩) =
      .ok (pyStripStr "demo summary") "paragraph" "medium" :=
  ⟨by decide,
   summarize_defaults_echoed genDemo
     "An input text that is comfortably longer than fifty characters for testing."
     "demo summary" 0 (by decide) rfl⟩

/-- C3: for every valid request (text of trimmed length at least 50, mode
and length absent or strings whose lower-casing is valid), a failing
external call with description `e` produces exactly
`500` `"An error occurred while generating the summary: " ++ e`; the
handler itself never propagates the exception. -/
theorem summarize_upstream_failure_500 (gen : String → Except String String)
    (t e : String) (om ol : Option String) (k : Nat)
    (hlen : 50 ≤ (pyStripStr t).length)
    (hm : pyLowerStr (om.getD "paragraph") ∈ validModes)
    (hl : pyLowerStr (ol.getD "medium") ∈ validLengths)
    (hg : gen (construct_prompt (pyStripStr t) (pyLowerStr (om.getD "paragraph"))
        (pyLowerStr (ol.getD "medium"))) = .error e) :
    summarize gen (some ⟨some (.str t), om.map .str, ol.map .str, k⟩) =
      .serverError ("An error occurred while generating the summary: " ++ e) := by
  have h1 : ¬ pyStripStr t = "" := by
    intro he
    rw [he] at hlen
    simp at hlen
  have h2 : ¬ (pyStripStr t).length < 50 := Nat.not_lt.mpr hlen
  cases om <;> cases ol <;>
    simp_all [summarize, summarizeCore, pyStrip, pyLower, JObj.isTruthy] <;>
    rw [if_neg (Nat.not_lt.mpr hlen)]

/-- Witness for C3: a valid bullets-mode request against a failing service. -/
theorem summarize_upstream_failure_500_witness :
    (50 ≤ (pyStripStr "An input text that is comfortably longer than fifty characters for testing.").length ∧
     pyLowerStr "bullets" ∈ validModes ∧ pyLowerStr "medium" ∈ validLengths) ∧
    summarize genFail
        (some ⟨some (.str "An input text that is comfortably longer than fifty characters for testing."),
          some (.str "bullets"), none, 0⟩) =
      .serverError "An error occurred while generating the summary: simulated upstream failure" :=
  ⟨⟨by decide, by decide, by decide⟩,
   summarize_upstream_failure_500 genFail
     "An input text that is comfortably longer than fifty characters for testing."
     "simulated upstream failure" (some "bullets") none 0
     (by decide) (by decide) (by decide) rfl⟩

/-- C8 (amended): for a body parsing to a JSON object that is non-empty,
whose mode and length fields (when present) are strings, and whose text
field is absent or a string trimming to empty, the handler answers `400`
"Text field is required". -/
theorem summarize_text_required :
    (∀ (gen : String → Except String String) (om ol : Option String) (k : Nat),
      om.isSome = true ∨ ol.isSome = true ∨ k ≠ 0 →
      summarize gen (some ⟨none, om.map .str, ol.map .str, k⟩) =
        .clientError "Text field is required") ∧
    (∀ (gen : String → Except String String) (t : String) (om ol : Option String) (k : Nat),
      pyStripStr t = "" →
      summarize gen (some ⟨some (.str t), om.map .str, ol.map .str, k⟩) =
        .clientError "Text field is required") := by
  have hps : pyStripStr "" = "" := by decide
  constructor
  · intro gen om ol k hne
    rcases om with _ | m <;> rcases ol with _ | l <;>
      simp_all [summarize, summarizeCore, pyStrip, pyLower, JObj.isTruthy, hps]
  · intro gen t om ol k h
    cases om <;> cases ol <;>
      simp [summarize, summarizeCore, pyStrip, pyLower, JObj.isTruthy, h]

/-- Counterexample to C8 as frozen: the empty JSON object has no text field
yet yields "No data provided" (Python's falsy-dict test fires first), and an
object whose only field is a numeric mode yields `500`, not the claimed
`400` message. -/
theorem summarize_text_required_counterexample :
    (summarize genDemo (some ⟨none, none, none, 0⟩) =
      .clientError "No data provided") ∧
    (summarize genDemo (some ⟨none, some (.num 7), none, 0⟩) =
      .serverError "An error occurred while generating the summary: \x27int\x27 object has no attribute \x27lower\x27") := by
  decide

/-- Witness for C8: a mode-only object and a whitespace text both get
"Text field is required". -/
theorem summarize_text_required_witness :
    (((some "paragraph" : Option String).isSome = true ∨
        (none : Option String).isSome = true ∨ (0 : Nat) ≠ 0) ∧
      summarize genDemo (some ⟨none, (some "paragraph").map .str, none, 0⟩) =
        .clientError "Text field is required") ∧
    (pyStripStr "  " = "" ∧
      summarize genDemo (some ⟨some (.str "  "), none, none, 0⟩) =
        .clientError "Text field is required") :=
  ⟨⟨by decide, summarize_text_required.1 genDemo (some "paragraph") none 0 (by decide)⟩,
   ⟨by decide, summarize_text_required.2 genDemo "  " none none 0 (by decide)⟩⟩

theorem summarizeCore_mode_congr (gen : String → Except String String)
    (ot ol : Option JVal) (k : Nat) (v1 v2 : Option JVal)
    (hsome : v1.isSome = v2.isSome)
    (h : pyLower (v1.getD (.str "paragraph")) = pyLower (v2.getD (.str "paragraph"))) :
    summarizeCore gen (some ⟨ot, v1, ol, k⟩) = summarizeCore gen (some ⟨ot, v2, ol, k⟩) := by
  simp [summarizeCore, JObj.isTruthy, hsome, h]

theorem summarizeCore_length_congr (gen : String → Except String String)
    (ot om : Option JVal) (k : Nat) (v1 v2 : Option JVal)
    (hsome : v1.isSome = v2.isSome)
    (h : pyLower (v1.getD (.str "medium")) = pyLower (v2.getD (.str "medium"))) :
    summarizeCore gen (some ⟨ot, om, v1, k⟩) = summarizeCore gen (some ⟨ot, om, v2, k⟩) := by
  simp [summarizeCore, JObj.isTruthy, hsome, h]

/-- C9: mode and length are matched case-insensitively: two requests that
differ only in the spelling of mode (or of length) up to case produce the
same validation outcome, prompt and response. -/
theorem summarize_case_insensitive :
    (∀ (gen : String → Except String String) (d : JObj) (m1 m2 : String),
      pyLowerStr m1 = pyLowerStr m2 →
      summarize gen (some { d with mode := some (.str m1) }) =
        summarize gen (some { d with mode := some (.str m2) })) ∧
    (∀ (gen : String → Except String String) (d : JObj) (l1 l2 : String),
      pyLowerStr l1 = pyLowerStr l2 →
      summarize gen (some { d with length := some (.str l1) }) =
        summarize gen (some { d with length := some (.str l2) })) := by
  constructor
  · intro gen d m1 m2 h
    have hc := summarizeCore_mode_congr gen d.text d.length d.others
      (some (.str m1)) (some (.str m2)) rfl (by simp [pyLower, h])
    simp [summarize, hc]
  · intro gen d l1 l2 h
    have hc := summarizeCore_length_congr gen d.text d.mode d.others
      (some (.str l1)) (some (.str l2)) rfl (by simp [pyLower, h])
    simp [summarize, hc]

/-- Witness for C9 at the spec's example `mode="BULLETS"` (and
`length="MEDIUM"`). -/
theorem summarize_case_insensitive_witness :
    (pyLowerStr "BULLETS" = pyLowerStr "bullets" ∧
      summarize genDemo
          (some { (⟨some (.str "This sample input text is exactly fifty chars long"), none, none, 0⟩ : JObj) with
            mode := some (.str "BULLETS") }) =
        summarize genDemo
          (some { (⟨some (.str "This sample input text is exactly fifty chars long"), none, none, 0⟩ : JObj) with
            mode := some (.str "bullets") })) ∧
    (pyLowerStr "MEDIUM" = pyLowerStr "medium" ∧
      summarize genDemo
          (some { (⟨some (.str "This sample input text is exactly fifty chars long"), none, none, 0⟩ : JObj) with
            length := some (.str "MEDIUM") }) =
        summarize genDemo
          (some { (⟨some (.str "This sample input text is exactly fifty chars long"), none, none, 0⟩ : JObj) with
            length := some (.str "medium") })) :=
  ⟨⟨by decide,
    summarize_case_insensitive.1 genDemo
      ⟨some (.str "This sample input text is exactly fifty chars long"), none, none, 0⟩
      "BULLETS" "bullets" (by decide)⟩,
   ⟨by decide,
    summarize_case_insensitive.2 genDemo
      ⟨some (.str "This sample input text is exactly fifty chars long"), none, none, 0⟩
      "MEDIUM" "medium" (by decide)⟩⟩

/-- C10: on a non-empty JSON object whose text value is `null`, or whose
mode or length value is present but not a string, the handler answers
`500` through the catch-all (the attribute access raises before the `400`
validation tier, which only covers string-typed fields). -/
theorem summarize_non_string_fields_500 (gen : String → Except String String)
    (d : JObj) (ht : d.isTruthy = true)
    (h : d.text = some .null ∨
         (∃ v, d.mode = some v ∧ ∀ s, v ≠ .str s) ∨
         (∃ v, d.length = some v ∧ ∀ s, v ≠ .str s)) :
    ∃ msg, summarize gen (some d) = .serverError msg := by
  clear ht
  obtain ⟨ot, om, ol, k⟩ := d
  suffices hcore : ∃ e, summarizeCore gen (some ⟨ot, om, ol, k⟩) = .error e by
    obtain ⟨e, he⟩ := hcore
    exact ⟨_, summarize_of_core_error _ _ _ he⟩
  rcases h with h | ⟨v, hv, hns⟩ | ⟨v, hv, hns⟩
  · simp only at h
    subst h
    simp [summarizeCore, JObj.isTruthy, pyStrip]
  · simp only at hv
    subst hv
    rcases v with s | n | _
    · exact absurd rfl (hns s)
    all_goals
      rcases ot with _ | w
      · simp [summarizeCore, JObj.isTruthy, pyStrip, pyLower]
      · rcases w with s2 | n2 | _ <;>
          simp [summarizeCore, JObj.isTruthy, pyStrip, pyLower]
  · simp only at hv
    subst hv
    rcases v with s | n | _
    · exact absurd rfl (hns s)
    all_goals
      rcases ot with _ | w
      · rcases om with _ | u
        · simp [summarizeCore, JObj.isTruthy, pyStrip, pyLower]
        · rcases u with s3 | n3 | _ <;>
            simp [summarizeCore, JObj.isTruthy, pyStrip, pyLower]
      · rcases w with s2 | n2 | _
        · rcases om with _ | u
          · simp [summarizeCore, JObj.isTruthy, pyStrip, pyLower]
          · rcases u with s3 | n3 | _ <;>
              simp [summarizeCore, JObj.isTruthy, pyStrip, pyLower]
        · simp [summarizeCore, JObj.isTruthy, pyStrip, pyLower]
        · simp [summarizeCore, JObj.isTruthy, pyStrip, pyLower]

/-- Witness for C10 at the object whose only field is a `null` text. -/
theorem summarize_non_string_fields_500_witness :
    ((⟨some .null, none, none, 0⟩ : JObj).isTruthy = true ∧
      ((⟨some .null, none, none, 0⟩ : JObj).text = some .null ∨
        (∃ v, (⟨some .null, none, none, 0⟩ : JObj).mode = some v ∧ ∀ s, v ≠ .str s) ∨
        (∃ v, (⟨some .null, none, none, 0⟩ : JObj).length = some v ∧ ∀ s, v ≠ .str s))) ∧
    ∃ msg, summarize genDemo (some ⟨some .null, none, none, 0⟩) = .serverError msg :=
  ⟨⟨by decide, Or.inl rfl⟩,
   summarize_non_string_fields_500 genDemo ⟨some .null, none, none, 0⟩ (by decide) (Or.inl rfl)⟩
